import Mathlib

/-!
Shallow embedding of `src/refresh.js` (devtoolz "refresh" utility).

The program is a sequential callback pipeline (`async.waterfall`):
`setupProgramInfo → displayHeader → validateProgram → setupConfigOptions
→ processRequest`, with a top-level error handler that prints the error
message and calls `process.exit()` (refresh.js lines 33-45).  Because the
`async` library propagates an error to the final waterfall callback
synchronously, an error delivered to the callback of any step reaches
`process.exit()` synchronously and no further work of the run happens.
The embedding therefore models each stage as a pure function returning
`Except`-style results together with the list of externally visible
side effects (file probes, config reads, svn updates, external command
executions, and the printed timing line).
-/

namespace DevToolz

/-- A JavaScript `Error` value: only the message is observable here. -/
structure JsError where
  message : String
deriving Repr, DecidableEq

/-- A configured project (`config.json` `projects` entry, see refresh.js
lines 240-269: fields `name`, `path`, `buildTool`, `buildPath`, `slnFile`). -/
structure Project where
  name : String
  path : String
  buildTool : String
  buildPath : String
  slnFile : String
deriving Repr, DecidableEq

/-- A configured workspace (`config.json` `workspaces` entry): a name and a
list of project-name references (refresh.js lines 300-311). -/
structure Workspace where
  name : String
  projects : List String
deriving Repr, DecidableEq

/-- A build-tool command template (`buildConfig[tool] = {buildFile, buildArgs}`). -/
structure BuildCommand where
  buildFile : String
  buildArgs : List String
deriving Repr, DecidableEq

/-- The `buildConfig` JS object, modelled as an association list keyed by
tool name. -/
abbrev BuildConfigMap := List (String × BuildCommand)

/-- JS property lookup `buildConfig[tool]`: first binding for the key, or
`undefined` (`none`). -/
def lookupTool (m : BuildConfigMap) (tool : String) : Option BuildCommand :=
  (m.find? (fun kv => kv.1 == tool)).map (·.2)

/-- The loaded configuration (refresh.js lines 132-141): `buildConfig`
defaults to `null` (`none`), `projects` and `workspaces` default to `[]`.
`reposRoot` is never read by the program and is omitted. -/
structure Config where
  buildConfig : Option BuildConfigMap
  projects : List Project
  workspaces : List Workspace

/-- Externally visible side effects of a run, in program order. -/
inductive Event where
  | fsAccess (path : String)
  | configRead (path : String)
  | svnUpdate (path : String)
  | exec (file : String) (args : List String) (cwd : String)
  | timing (line : String)
deriving Repr, DecidableEq

/-- The external world: file-system readability (`fs.access`), config
loading (`opts.read`, covering both read and parse failures), the svn
update outcome per working-copy path, the outcome of `execFile` per
invocation, and the measured elapsed duration in milliseconds
(`endTime - startTime`, an integer number of ms). -/
structure World where
  fsReadable : String → Bool
  configLoad : String → Except JsError Config
  svnOk : String → Bool
  svnErr : String → JsError
  execOk : String → List String → String → Bool
  execErr : String → List String → String → JsError
  elapsedMs : Nat

/-- Parsed command-line state (`program` from commander): `process.argv`
length and the four option values.  A string option is `none` when the flag
was not supplied (JS `undefined`). -/
structure ProgramOpts where
  argvLen : Nat
  project : Option String
  workspace : Option String
  config : Option String
  build : Bool

/-- JS truthiness of a string-or-undefined option value: `undefined` and
`""` are falsy, every other string is truthy. -/
def jsTruthy : Option String → Bool
  | none => false
  | some s => !(s == "")

/-- JS string coercion used by the message concatenation with
`program.config`: `undefined` prints as `"undefined"`. -/
def jsShow : Option String → String
  | none => "undefined"
  | some s => s

/-- `Math.round` (half away from zero rounds toward +∞ in JS):
`round x = ⌊x + 1/2⌋`. -/
def jsRound (x : ℚ) : ℤ := ⌊x + 1 / 2⌋

/-- JS `%` on numbers is a truncated remainder; all operands in
`displayProcessTime` are nonnegative, where it agrees with
`x - y * ⌊x / y⌋`. -/
def jsMod (x y : ℚ) : ℚ := x - y * (⌊x / y⌋ : ℚ)

/-- `displayProcessTime` (refresh.js lines 323-331), as a function from the
measured duration in milliseconds to the printed line:
`timeDiff = ms / 1000; seconds = round(timeDiff % 60);
timeDiff = floor(timeDiff / 60); minutes = round(timeDiff % 60)`.
Every quantity the theorems evaluate it at is exact in IEEE-754 doubles
(integer ms of the form `1000 * s`), so exact rational arithmetic is a
faithful model at those inputs. -/
def displayProcessTime (ms : Nat) : String :=
  let timeDiff : ℚ := (ms : ℚ) / 1000
  let seconds : ℤ := jsRound (jsMod timeDiff 60)
  let timeDiff2 : ℤ := ⌊timeDiff / 60⌋
  let minutes : ℤ := jsRound (jsMod (timeDiff2 : ℚ) 60)
  "Refresh complete in " ++ toString minutes ++ " minutes and " ++
    toString seconds ++ " seconds."

/-- The header-display conditional (refresh.js lines 68-71):
the OR of the four negated membership tests of `-h`, `--help`, `-V` and
`--version` in `process.argv`. -/
def headerCond (argv : List String) : Bool :=
  !(argv.contains "-h") || !(argv.contains "--help") ||
    !(argv.contains "-V") || !(argv.contains "--version")

/-- `_.find` with a `name`-matching predicate (lodash) for projects
(refresh.js lines 212 and 304): first entry whose `name` equals the target
under exact (case-sensitive) string equality. -/
def findProjectByName (ps : List Project) (target : String) : Option Project :=
  ps.find? (fun p => p.name == target)

/-- `validateTargetProject` (refresh.js lines 211-219). -/
def validateTargetProject (ps : List Project) (target : String) :
    Except JsError Project :=
  match findProjectByName ps target with
  | none => .error ⟨"Project " ++ target ++ " is not configured."⟩
  | some p => .ok p

/-- `validateTargetWorkspace` (refresh.js lines 224-232). -/
def validateTargetWorkspace (wss : List Workspace) (target : String) :
    Except JsError Workspace :=
  match wss.find? (fun ws => ws.name == target) with
  | none => .error ⟨"Workspace " ++ target ++ " is not configured."⟩
  | some ws => .ok ws

/-- The outcome of one run of `refreshTargetProject` / `refreshTargetWorkspace`:
the build-config templates after the call (the source deep-clones each
template with the lodash 3 deep clone `_.clone(v, true)` before inserting
arguments, so
the stored templates are unchanged; threading them makes that a checkable
frame property), the emitted side effects in order, and the error, if any,
delivered to the continuation. -/
structure RunResult where
  buildConfig : BuildConfigMap
  events : List Event
  err : Option JsError
deriving Repr, DecidableEq

/-- `Array.prototype.splice(1, 0, x)`: insert `x` at index 1; JS clamps the
start index to the array length, so on an empty array the element lands at
index 0. -/
def splice1 (x : String) : List String → List String
  | [] => [x]
  | a :: rest => a :: x :: rest

/-- Error standing for the JS `TypeError` thrown when a build-tool template
is missing from `buildConfig` and the code dereferences `undefined`
(refresh.js lines 246, 254, 265).  No theorem exercises this branch. -/
def typeErrorUndefined : JsError :=
  ⟨"TypeError: cannot read property of undefined"⟩

/-- `refreshTargetProject` (refresh.js lines 237-294): svn-update the
working copy; on success and when a build was requested, either the
two-phase `msbuild` path (clone the `nuget` template, splice the solution
file in at index 1, run the restore, and only on success push the solution
file onto the cloned build template and run the build) or the generic
single-command path.  `_.clone(template, true)` is a lodash 3 deep clone, so
the argument insertions act on per-invocation copies and the returned
`buildConfig` is the one passed in. -/
def refreshTargetProject (w : World) (build : Bool) (bcfg : BuildConfigMap)
    (p : Project) : RunResult :=
  if !(w.svnOk p.path) then
    ⟨bcfg, [.svnUpdate p.path], some (w.svnErr p.path)⟩
  else if build then
    -- var bc = _.clone(opts.value.buildConfig[project.buildTool], true)
    let bc? := lookupTool bcfg p.buildTool
    if p.buildTool == "msbuild" then
      match lookupTool bcfg "nuget" with
      | none => ⟨bcfg, [.svnUpdate p.path], some typeErrorUndefined⟩
      | some nc =>
        -- nc.buildArgs.splice(1, 0, project.slnFile) — mutates the clone only
        let restoreArgs := splice1 p.slnFile nc.buildArgs
        if !(w.execOk nc.buildFile restoreArgs p.buildPath) then
          ⟨bcfg,
           [.svnUpdate p.path, .exec nc.buildFile restoreArgs p.buildPath],
           some (w.execErr nc.buildFile restoreArgs p.buildPath)⟩
        else
          match bc? with
          | none =>
            ⟨bcfg,
             [.svnUpdate p.path, .exec nc.buildFile restoreArgs p.buildPath],
             some typeErrorUndefined⟩
          | some bc =>
            -- bc.buildArgs.push(project.slnFile) — mutates the clone only
            let buildArgs := bc.buildArgs ++ [p.slnFile]
            if !(w.execOk bc.buildFile buildArgs p.buildPath) then
              ⟨bcfg,
               [.svnUpdate p.path, .exec nc.buildFile restoreArgs p.buildPath,
                .exec bc.buildFile buildArgs p.buildPath],
               some (w.execErr bc.buildFile buildArgs p.buildPath)⟩
            else
              ⟨bcfg,
               [.svnUpdate p.path, .exec nc.buildFile restoreArgs p.buildPath,
                .exec bc.buildFile buildArgs p.buildPath],
               none⟩
    else
      match bc? with
      | none => ⟨bcfg, [.svnUpdate p.path], some typeErrorUndefined⟩
      | some bc =>
        if !(w.execOk bc.buildFile bc.buildArgs p.buildPath) then
          ⟨bcfg,
           [.svnUpdate p.path, .exec bc.buildFile bc.buildArgs p.buildPath],
           some (w.execErr bc.buildFile bc.buildArgs p.buildPath)⟩
        else
          ⟨bcfg,
           [.svnUpdate p.path, .exec bc.buildFile bc.buildArgs p.buildPath],
           none⟩
  else
    ⟨bcfg, [.svnUpdate p.path], none⟩

/-- `async.eachSeries(targetProjects, refreshTargetProject, …)`
(refresh.js line 313): process the resolved projects strictly in listed
order; the first per-project error stops the iteration and is propagated to
the final callback unchanged. -/
def eachSeries (w : World) (build : Bool) :
    BuildConfigMap → List Project → RunResult
  | bcfg, [] => ⟨bcfg, [], none⟩
  | bcfg, p :: ps =>
    let r := refreshTargetProject w build bcfg p
    match r.err with
    | some e => ⟨r.buildConfig, r.events, some e⟩
    | none =>
      let rest := eachSeries w build r.buildConfig ps
      ⟨rest.buildConfig, r.events ++ rest.events, rest.err⟩

/-- The reference-resolution loop of `refreshTargetWorkspace`
(refresh.js lines 303-311): resolve each project-name reference in order;
an unresolved reference invokes the error callback, which reaches the
top-level handler and `process.exit()` synchronously (lines 33-45), so
iteration stops there and nothing of the workspace is ever run. -/
def resolveWorkspaceProjects (cfgProjects : List Project) :
    List String → Except JsError (List Project)
  | [] => .ok []
  | n :: rest =>
    match findProjectByName cfgProjects n with
    | none => .error ⟨"Workspace project " ++ n ++ " is not configured."⟩
    | some p =>
      match resolveWorkspaceProjects cfgProjects rest with
      | .error e => .error e
      | .ok ps => .ok (p :: ps)

/-- `refreshTargetWorkspace` (refresh.js lines 300-318): resolve every
reference, then run the per-project pipeline in series.  On a resolution
failure the synchronous exit means no update/build event is emitted. -/
def refreshTargetWorkspace (w : World) (build : Bool) (bcfg : BuildConfigMap)
    (cfgProjects : List Project) (ws : Workspace) : RunResult :=
  match resolveWorkspaceProjects cfgProjects ws.projects with
  | .error e => ⟨bcfg, [], some e⟩
  | .ok ps => eachSeries w build bcfg ps

/-- Top-level run outcome: the final waterfall callback receives an
error, receives success, or — when `processRequest` takes neither branch —
is never invoked at all and the process drains silently. -/
inductive Outcome where
  | success
  | failure (e : JsError)
  | noCallback
deriving Repr, DecidableEq

/-- The config path: `program.config` when truthy, the default
`config.json` otherwise (refresh.js line 117); the empty string is falsy. -/
def configPathOf (o : ProgramOpts) : String :=
  match o.config with
  | none => "config.json"
  | some s => if s == "" then "config.json" else s

/-- `validateProgram` (refresh.js lines 97-127): flag validation (the
conflict check overwrites the no-arguments message when both fire), then
`fs.access` on the configured or defaulted path.  Note the unreadable-path
message interpolates `program.config` itself, not the defaulted path. -/
def validateProgram (w : World) (o : ProgramOpts) :
    List Event × Except JsError String :=
  let s0 := (true, "")
  let s1 := if o.argvLen ≤ 2 then (false, "No arguments defined.") else s0
  let s2 := if jsTruthy o.project && jsTruthy o.workspace then
      (false, "Options --project and --workspace cannot be used together.")
    else s1
  if !s2.1 then ([], .error ⟨s2.2⟩)
  else
    let cp := configPathOf o
    if w.fsReadable cp then ([.fsAccess cp], .ok cp)
    else ([.fsAccess cp],
          .error ⟨"Cannot locate --config value: " ++ jsShow o.config⟩)

/-- `setupConfigOptions` (refresh.js lines 132-154): read the config file,
then reject `--build` when `buildConfig` is undefined or null. -/
def setupConfigOptions (w : World) (o : ProgramOpts) (cp : String) :
    List Event × Except JsError Config :=
  match w.configLoad cp with
  | .error e => ([.configRead cp], .error e)
  | .ok cfg =>
    if o.build && cfg.buildConfig.isNone then
      ([.configRead cp],
       .error ⟨"Using option --build but no \"buildConfig\" configuration defined."⟩)
    else ([.configRead cp], .ok cfg)

/-- The `program.project` branch of `processRequest`
(refresh.js lines 161-182): resolve, refresh, and on success print the
elapsed-time line. -/
def projectBranch (w : World) (o : ProgramOpts) (cfg : Config)
    (name : String) : List Event × Outcome :=
  match validateTargetProject cfg.projects name with
  | .error e => ([], .failure e)
  | .ok p =>
    let r := refreshTargetProject w o.build (cfg.buildConfig.getD []) p
    match r.err with
    | some e => (r.events, .failure e)
    | none => (r.events ++ [.timing (displayProcessTime w.elapsedMs)], .success)

/-- The `program.workspace` branch of `processRequest`
(refresh.js lines 184-205). -/
def workspaceBranch (w : World) (o : ProgramOpts) (cfg : Config)
    (name : String) : List Event × Outcome :=
  match validateTargetWorkspace cfg.workspaces name with
  | .error e => ([], .failure e)
  | .ok ws =>
    let r := refreshTargetWorkspace w o.build (cfg.buildConfig.getD [])
      cfg.projects ws
    match r.err with
    | some e => (r.events, .failure e)
    | none => (r.events ++ [.timing (displayProcessTime w.elapsedMs)], .success)

/-- `processRequest` (refresh.js lines 160-206): two independent `if`
statements.  With neither option set, neither body runs and the waterfall
callback is never invoked (`noCallback`).  Both options set is unreachable
from the validated pipeline (see `validateProgram`); in the real code the
two branches would start concurrently, and the case is modelled as the
project branch alone. -/
def processRequest (w : World) (o : ProgramOpts) (cfg : Config) :
    List Event × Outcome :=
  match jsTruthy o.project, jsTruthy o.workspace with
  | true, _ => projectBranch w o cfg (o.project.getD "")
  | false, true => workspaceBranch w o cfg (o.workspace.getD "")
  | false, false => ([], .noCallback)

/-- The whole waterfall (refresh.js lines 25-35), with the trace of
externally visible effects.  `displayHeader` only writes to the console and
is modelled separately as `headerCond`. -/
def fullRun (w : World) (o : ProgramOpts) : List Event × Outcome :=
  match validateProgram w o with
  | (ev1, .error e) => (ev1, .failure e)
  | (ev1, .ok cp) =>
    match setupConfigOptions w o cp with
    | (ev2, .error e) => (ev1 ++ ev2, .failure e)
    | (ev2, .ok cfg) =>
      match processRequest w o cfg with
      | (ev3, out) => (ev1 ++ ev2 ++ ev3, out)

/-! Concrete sample data used by witnesses: a small configuration in the
shape of the `config.json` documented in the spec. -/

/-- Sample `buildConfig.msbuild` template. -/
def demoMsbuild : BuildCommand := ⟨"msbuild.exe", ["/t:Rebuild"]⟩

/-- Sample `buildConfig.nuget` template. -/
def demoNuget : BuildCommand := ⟨"nuget.exe", ["restore"]⟩

/-- Sample `buildConfig` mapping. -/
def demoBuildCfg : BuildConfigMap := [("msbuild", demoMsbuild), ("nuget", demoNuget)]

/-- Sample configured project `A`. -/
def demoA : Project := ⟨"A", "/repos/A", "msbuild", "/repos/A", "A.sln"⟩

/-- Sample configured project `B`. -/
def demoB : Project := ⟨"B", "/repos/B", "msbuild", "/repos/B", "B.sln"⟩

/-- Sample configured project `C`. -/
def demoC : Project := ⟨"C", "/repos/C", "msbuild", "/repos/C", "C.sln"⟩

/-- Sample configuration with three projects and one workspace holding an
unresolved reference `"X"`. -/
def demoConfig : Config :=
  ⟨some demoBuildCfg, [demoA, demoB, demoC], [⟨"W", ["A", "X"]⟩]⟩

/-- A world in which every external operation succeeds and the measured
duration is 125000 ms. -/
def demoWorld : World :=
  ⟨fun _ => true, fun _ => .ok demoConfig, fun _ => true,
   fun p => ⟨"svn: update failed for " ++ p⟩, fun _ _ _ => true,
   fun f _ _ => ⟨"exec failed: " ++ f⟩, 125000⟩

/-- A world like `demoWorld` whose file system has no readable config file. -/
def demoNoConfigWorld : World :=
  { demoWorld with fsReadable := fun _ => false }

/-- A world like `demoWorld` in which the svn update of `/repos/B` fails. -/
def demoSvnFailBWorld : World :=
  { demoWorld with svnOk := fun p => !(p == "/repos/B") }

/-! ### Helper lemmas -/

/-- `refreshTargetProject` never changes the stored build-config templates:
every branch returns the mapping it was given (the source clones each
template before inserting arguments). -/
theorem refreshTargetProject_buildConfig (w : World) (b : Bool)
    (bcfg : BuildConfigMap) (p : Project) :
    (refreshTargetProject w b bcfg p).buildConfig = bcfg := by
  unfold refreshTargetProject
  dsimp only
  repeat' split
  all_goals rfl

/-- `eachSeries` never changes the stored build-config templates. -/
theorem eachSeries_buildConfig (w : World) (b : Bool) :
    ∀ (ps : List Project) (bcfg : BuildConfigMap),
      (eachSeries w b bcfg ps).buildConfig = bcfg := by
  intro ps
  induction ps with
  | nil => intro bcfg; rfl
  | cons p t ih =>
    intro bcfg
    unfold eachSeries
    dsimp only
    split
    · rw [refreshTargetProject_buildConfig]
    · show (eachSeries w b (refreshTargetProject w b bcfg p).buildConfig t).buildConfig = bcfg
      rw [ih, refreshTargetProject_buildConfig]

/-- No timing line is ever emitted by `refreshTargetProject`. -/
theorem timing_notin_refreshTargetProject (w : World) (b : Bool)
    (bcfg : BuildConfigMap) (p : Project) (line : String) :
    Event.timing line ∉ (refreshTargetProject w b bcfg p).events := by
  unfold refreshTargetProject
  dsimp only
  repeat' split
  all_goals simp

/-- No timing line is ever emitted by `eachSeries`. -/
theorem timing_notin_eachSeries (w : World) (b : Bool) :
    ∀ (ps : List Project) (bcfg : BuildConfigMap) (line : String),
      Event.timing line ∉ (eachSeries w b bcfg ps).events := by
  intro ps
  induction ps with
  | nil => intro bcfg line; simp [eachSeries]
  | cons p t ih =>
    intro bcfg line
    unfold eachSeries
    dsimp only
    split
    · exact timing_notin_refreshTargetProject w b bcfg p line
    · simp only [List.mem_append]
      rintro (h | h)
      · exact timing_notin_refreshTargetProject w b bcfg p line h
      · exact ih _ line h

/-- No timing line is ever emitted by `refreshTargetWorkspace`. -/
theorem timing_notin_refreshTargetWorkspace (w : World) (b : Bool)
    (bcfg : BuildConfigMap) (cfgProjects : List Project) (ws : Workspace)
    (line : String) :
    Event.timing line ∉ (refreshTargetWorkspace w b bcfg cfgProjects ws).events := by
  unfold refreshTargetWorkspace
  split
  · simp
  · exact timing_notin_eachSeries w b _ bcfg line

/-- Characterization of `List.find?` as the first match: a found element
satisfies the predicate, occurs at some index, and every earlier element
fails the predicate. -/
theorem find?_first {α : Type} (f : α → Bool) :
    ∀ (l : List α) (b : α), l.find? f = some b →
      f b = true ∧ ∃ i, i < l.length ∧ l[i]? = some b ∧
        ∀ j, j < i → ∀ q, l[j]? = some q → f q = false := by
  intro l
  induction l with
  | nil => intro b h; simp [List.find?] at h
  | cons a t ih =>
    intro b h
    rw [List.find?] at h
    cases hfa : f a with
    | true =>
      rw [hfa] at h
      simp only [Option.some.injEq] at h
      subst h
      refine ⟨hfa, 0, by simp, by simp, ?_⟩
      intro j hj
      omega
    | false =>
      rw [hfa] at h
      simp only at h
      obtain ⟨hfb, i, hi, hget, hprev⟩ := ih b h
      refine ⟨hfb, i + 1, by simpa using hi, by simpa using hget, ?_⟩
      intro j hj q hq
      cases j with
      | zero => simp at hq; subst hq; exact hfa
      | succ j =>
        simp only [List.getElem?_cons_succ] at hq
        exact hprev j (by omega) q hq

/-- A failing reference in the list makes `resolveWorkspaceProjects` return
the configured-error of the first failing reference, before anything runs. -/
theorem resolve_error_of_unresolved (cfgProjects : List Project) :
    ∀ (names : List String),
      (∃ n ∈ names, findProjectByName cfgProjects n = none) →
      ∃ n ∈ names, findProjectByName cfgProjects n = none ∧
        resolveWorkspaceProjects cfgProjects names =
          .error ⟨"Workspace project " ++ n ++ " is not configured."⟩ := by
  intro names
  induction names with
  | nil => rintro ⟨n, hn, _⟩; simp at hn
  | cons m rest ih =>
    rintro ⟨n, hn, hnone⟩
    cases hm : findProjectByName cfgProjects m with
    | none =>
      exact ⟨m, by simp, hm, by unfold resolveWorkspaceProjects; rw [hm]⟩
    | some p =>
      have hne : n ≠ m := fun h => by rw [h, hm] at hnone; exact Option.noConfusion hnone
      have hn' : n ∈ rest := by
        rcases List.mem_cons.mp hn with h | h
        · exact absurd h hne
        · exact h
      obtain ⟨n', hn'', hnone', heq⟩ := ih ⟨n, hn', hnone⟩
      refine ⟨n', List.mem_cons_of_mem m hn'', hnone', ?_⟩
      unfold resolveWorkspaceProjects
      rw [hm, heq]

/-! ### Claim theorems -/

/-- C5: whenever both `--project` and `--workspace` are set (truthy), the
run fails with the usage error naming the two conflicting options, with an
empty side-effect trace: no file access and no configuration read happens,
for every possible world. -/
theorem conflict_usage_error (w : World) (o : ProgramOpts)
    (hp : jsTruthy o.project = true) (hw : jsTruthy o.workspace = true) :
    fullRun w o =
      ([], .failure ⟨"Options --project and --workspace cannot be used together."⟩) := by
  unfold fullRun validateProgram
  rw [hp, hw]
  simp

/-- Witness for C5: a concrete run with `--project A --workspace W` fails
with the conflict message and touches nothing. -/
theorem conflict_usage_error_witness :
    fullRun demoWorld ⟨6, some "A", some "W", none, false⟩ =
      ([], .failure ⟨"Options --project and --workspace cannot be used together."⟩) :=
  conflict_usage_error demoWorld ⟨6, some "A", some "W", none, false⟩ rfl rfl

/-- C6 counterexample: a run supplying one argument (`--build`, so
`process.argv.length = 3`) but neither `--project` nor `--workspace`, with
a readable and loadable configuration, does NOT fail with a usage error:
validation passes, the configuration is read, `processRequest` takes
neither branch and its callback is never invoked, so the run ends silently
(`noCallback`), refuting the claim that such a run fails with a usage
error. -/
theorem no_target_silent_counterexample :
    fullRun demoWorld ⟨3, none, none, none, true⟩ =
      ([.fsAccess "config.json", .configRead "config.json"], .noCallback) := rfl

/-- C6 amended: only a run with no arguments at all (argv length at most 2)
fails with the `No arguments defined.` usage error; a run supplying
arguments but neither `--project` nor `--workspace` passes validation, and
when the configuration is readable, loads, and the `--build` check passes,
the run performs no target processing at all and terminates silently with
its final callback never invoked (no usage error is raised). -/
theorem no_target_silent (w : World) (o : ProgramOpts) (cfg : Config)
    (hp : jsTruthy o.project = false) (hw : jsTruthy o.workspace = false) :
    (o.argvLen ≤ 2 → fullRun w o = ([], .failure ⟨"No arguments defined."⟩)) ∧
    (2 < o.argvLen →
      w.fsReadable (configPathOf o) = true →
      w.configLoad (configPathOf o) = .ok cfg →
      (o.build && cfg.buildConfig.isNone) = false →
      fullRun w o =
        ([.fsAccess (configPathOf o), .configRead (configPathOf o)], .noCallback)) := by
  constructor
  · intro hlen
    unfold fullRun validateProgram
    rw [hp, hw]
    simp [hlen]
  · intro hlen hfs hload hbuild
    have hlen' : ¬ o.argvLen ≤ 2 := by omega
    unfold fullRun validateProgram setupConfigOptions processRequest
    rw [hp, hw]
    simp [hlen', hfs, hload, hbuild]

/-- Witness for C6 amended: the concrete `--build`-only run of the
counterexample, passed through the amended statement. -/
theorem no_target_silent_witness :
    fullRun demoWorld ⟨3, none, none, none, true⟩ =
      ([.fsAccess (configPathOf ⟨3, none, none, none, true⟩),
        .configRead (configPathOf ⟨3, none, none, none, true⟩)], .noCallback) :=
  (no_target_silent demoWorld ⟨3, none, none, none, true⟩ demoConfig rfl rfl).2
    (by decide) rfl rfl rfl

/-- C7: the resolver returns the first entry of the ordered sequence whose
`name` equals the request under exact case-sensitive string equality, and
when no entry matches it fails with the not-configured error whose message
interpolates the requested identifier — for the `projects` sequence and the
`workspaces` sequence alike. -/
theorem resolver_first_match (ps : List Project) (wss : List Workspace)
    (t : String) :
    (∀ p, validateTargetProject ps t = .ok p →
      p.name = t ∧ ∃ i, i < ps.length ∧ ps[i]? = some p ∧
        ∀ j, j < i → ∀ q, ps[j]? = some q → q.name ≠ t) ∧
    ((∀ p ∈ ps, p.name ≠ t) →
      validateTargetProject ps t = .error ⟨"Project " ++ t ++ " is not configured."⟩) ∧
    (∀ ws, validateTargetWorkspace wss t = .ok ws →
      ws.name = t ∧ ∃ i, i < wss.length ∧ wss[i]? = some ws ∧
        ∀ j, j < i → ∀ q, wss[j]? = some q → q.name ≠ t) ∧
    ((∀ ws ∈ wss, ws.name ≠ t) →
      validateTargetWorkspace wss t = .error ⟨"Workspace " ++ t ++ " is not configured."⟩) := by
  refine ⟨?_, ?_, ?_, ?_⟩
  · intro p hp
    unfold validateTargetProject findProjectByName at hp
    cases hfind : ps.find? (fun q => q.name == t) with
    | none => rw [hfind] at hp; exact Except.noConfusion hp
    | some q =>
      rw [hfind] at hp
      simp only [Except.ok.injEq] at hp
      subst hp
      obtain ⟨hf, i, hi, hget, hprev⟩ := find?_first _ ps q hfind
      refine ⟨by simpa using hf, i, hi, hget, ?_⟩
      intro j hj r hr
      simpa using hprev j hj r hr
  · intro hnone
    unfold validateTargetProject findProjectByName
    rw [List.find?_eq_none.mpr (by intro q hq; simpa using hnone q hq)]
  · intro ws hws
    unfold validateTargetWorkspace at hws
    cases hfind : wss.find? (fun q => q.name == t) with
    | none => rw [hfind] at hws; exact Except.noConfusion hws
    | some q =>
      rw [hfind] at hws
      simp only [Except.ok.injEq] at hws
      subst hws
      obtain ⟨hf, i, hi, hget, hprev⟩ := find?_first _ wss q hfind
      refine ⟨by simpa using hf, i, hi, hget, ?_⟩
      intro j hj r hr
      simpa using hprev j hj r hr
  · intro hnone
    unfold validateTargetWorkspace
    rw [List.find?_eq_none.mpr (by intro q hq; simpa using hnone q hq)]

/-- Witness for C7, mirroring the example of the spec: in the projects list
`[A, B]`, requesting `B` resolves to the entry named `B`, and requesting
`C` fails with the error naming `C`. -/
theorem resolver_first_match_witness :
    demoB.name = "B" ∧
    validateTargetProject [demoA, demoB] "C" =
      .error ⟨"Project C is not configured."⟩ := by
  constructor
  · exact ((resolver_first_match [demoA, demoB] [] "B").1 demoB rfl).1
  · exact (resolver_first_match [demoA, demoB] [] "C").2.1 (by decide)

/-- C9 counterexample: for the argv `["node", "refresh"]` all four of
`-h`, `--help`, `-V`, `--version` are absent, yet the header-display
conditional evaluates to true (the header is displayed) — refuting the
claim that the conditional is true for every argv EXCEPT when all four
flags are simultaneously absent (equivalently, that the header is skipped
exactly when none of the flags appears). -/
theorem header_condition_counterexample :
    headerCond ["node", "refresh"] = true ∧
    ["node", "refresh"].contains "-h" = false ∧
    ["node", "refresh"].contains "--help" = false ∧
    ["node", "refresh"].contains "-V" = false ∧
    ["node", "refresh"].contains "--version" = false := by decide

/-- C9 amended: the OR of negated membership tests evaluates to true for
every argv except when all four flags are simultaneously PRESENT in argv;
equivalently, the header is skipped exactly when all four of `-h`,
`--help`, `-V`, `--version` appear. -/
theorem header_condition_amended (argv : List String) :
    headerCond argv = false ↔
      (argv.contains "-h" = true ∧ argv.contains "--help" = true ∧
       argv.contains "-V" = true ∧ argv.contains "--version" = true) := by
  unfold headerCond
  cases argv.contains "-h" <;> cases argv.contains "--help" <;>
    cases argv.contains "-V" <;> cases argv.contains "--version" <;> simp

/-- Witness for C9 amended: with all four flags present the conditional is
false (header skipped). -/
theorem header_condition_amended_witness :
    headerCond ["node", "refresh", "-h", "--help", "-V", "--version"] = false :=
  (header_condition_amended ["node", "refresh", "-h", "--help", "-V", "--version"]).mpr
    (by decide)

/-- C10: for every run that reaches the config check (some arguments, not
both target flags) with `--config` omitted and the defaulted `config.json`
unreadable, the run fails with the message interpolating the raw flag value
(`undefined`), not the resolved default path: the message is exactly
`Cannot locate --config value: undefined` and does not name `config.json`,
even though `config.json` is the path that was probed. -/
theorem config_error_raw_flag (w : World) (o : ProgramOpts)
    (hargs : 2 < o.argvLen)
    (hconflict : (jsTruthy o.project && jsTruthy o.workspace) = false)
    (hconfig : o.config = none)
    (hfs : w.fsReadable "config.json" = false) :
    fullRun w o =
      ([.fsAccess "config.json"],
       .failure ⟨"Cannot locate --config value: undefined"⟩) := by
  have hlen' : ¬ o.argvLen ≤ 2 := by omega
  unfold fullRun validateProgram configPathOf jsShow
  rw [hconflict, hconfig]
  simp [hlen', hfs]

/-- Witness for C10: a concrete `--project A` run with no `--config` flag
and no readable `config.json`. -/
theorem config_error_raw_flag_witness :
    fullRun demoNoConfigWorld ⟨4, some "A", none, none, false⟩ =
      ([.fsAccess "config.json"],
       .failure ⟨"Cannot locate --config value: undefined"⟩) :=
  config_error_raw_flag demoNoConfigWorld ⟨4, some "A", none, none, false⟩
    (by decide) rfl rfl rfl

/-- Stepping lemma: a project whose run errors stops `eachSeries` with that
error and that project under the events emitted so far. -/
theorem eachSeries_cons_err (w : World) (b : Bool) (bcfg : BuildConfigMap)
    (p : Project) (ps : List Project) (e : JsError)
    (h : (refreshTargetProject w b bcfg p).err = some e) :
    eachSeries w b bcfg (p :: ps) =
      ⟨bcfg, (refreshTargetProject w b bcfg p).events, some e⟩ := by
  conv_lhs => unfold eachSeries
  dsimp only
  rw [h, refreshTargetProject_buildConfig]

/-- Stepping lemma: a project whose run succeeds lets `eachSeries` continue
with the remaining projects, accumulating events. -/
theorem eachSeries_cons_ok (w : World) (b : Bool) (bcfg : BuildConfigMap)
    (p : Project) (ps : List Project)
    (h : (refreshTargetProject w b bcfg p).err = none) :
    eachSeries w b bcfg (p :: ps) =
      ⟨bcfg,
       (refreshTargetProject w b bcfg p).events ++ (eachSeries w b bcfg ps).events,
       (eachSeries w b bcfg ps).err⟩ := by
  conv_lhs => unfold eachSeries
  dsimp only
  rw [h, refreshTargetProject_buildConfig, eachSeries_buildConfig]

/-- A failing svn update makes `refreshTargetProject` stop after the update
event with the svn error, whatever the build flag. -/
theorem refreshTargetProject_svn_fail (w : World) (b : Bool)
    (bcfg : BuildConfigMap) (p : Project) (h : w.svnOk p.path = false) :
    refreshTargetProject w b bcfg p =
      ⟨bcfg, [.svnUpdate p.path], some (w.svnErr p.path)⟩ := by
  unfold refreshTargetProject
  rw [h]
  rfl

/-- The msbuild path when the nuget restore fails: the restore command runs
with the solution file spliced in at index 1, its error is propagated, and
no build command is ever executed. -/
theorem refreshTargetProject_msbuild_restore_fail (w : World)
    (bcfg : BuildConfigMap) (p : Project) (nc : BuildCommand)
    (htool : p.buildTool = "msbuild")
    (hnc : lookupTool bcfg "nuget" = some nc)
    (hsvn : w.svnOk p.path = true)
    (hrestore : w.execOk nc.buildFile (splice1 p.slnFile nc.buildArgs) p.buildPath = false) :
    refreshTargetProject w true bcfg p =
      ⟨bcfg,
       [.svnUpdate p.path, .exec nc.buildFile (splice1 p.slnFile nc.buildArgs) p.buildPath],
       some (w.execErr nc.buildFile (splice1 p.slnFile nc.buildArgs) p.buildPath)⟩ := by
  unfold refreshTargetProject
  rw [htool]
  simp [hsvn, hnc, hrestore]

/-- The msbuild path when the nuget restore succeeds: restore runs first,
then the build command with the solution file appended; the build outcome
decides the final error. -/
theorem refreshTargetProject_msbuild_restore_ok (w : World)
    (bcfg : BuildConfigMap) (p : Project) (nc bc : BuildCommand)
    (htool : p.buildTool = "msbuild")
    (hbc : lookupTool bcfg "msbuild" = some bc)
    (hnc : lookupTool bcfg "nuget" = some nc)
    (hsvn : w.svnOk p.path = true)
    (hrestore : w.execOk nc.buildFile (splice1 p.slnFile nc.buildArgs) p.buildPath = true) :
    refreshTargetProject w true bcfg p =
      ⟨bcfg,
       [.svnUpdate p.path, .exec nc.buildFile (splice1 p.slnFile nc.buildArgs) p.buildPath,
        .exec bc.buildFile (bc.buildArgs ++ [p.slnFile]) p.buildPath],
       if w.execOk bc.buildFile (bc.buildArgs ++ [p.slnFile]) p.buildPath then none
       else some (w.execErr bc.buildFile (bc.buildArgs ++ [p.slnFile]) p.buildPath)⟩ := by
  unfold refreshTargetProject
  rw [htool]
  by_cases hb : w.execOk bc.buildFile (bc.buildArgs ++ [p.slnFile]) p.buildPath <;>
    simp [hsvn, hnc, hbc, hrestore, hb]

/-- Membership in a `splice1` result. -/
theorem mem_splice1 (y x : String) (l : List String) :
    y ∈ splice1 x l ↔ y = x ∨ y ∈ l := by
  cases l with
  | nil => simp [splice1]
  | cons a t =>
    simp only [splice1, List.mem_cons]
    constructor
    · rintro (h | h | h)
      · exact Or.inr (Or.inl h)
      · exact Or.inl h
      · exact Or.inr (Or.inr h)
    · rintro (h | h | h)
      · exact Or.inr (Or.inl h)
      · exact Or.inl h
      · exact Or.inr (Or.inr h)

/-- C1: in a workspace run, if any project-name reference fails to resolve
against the configured projects list, the whole operation fails with the
not-configured error of an unresolved reference and the emitted event list
is empty: no update (and no build) runs for ANY project of the workspace,
including the references that did resolve. -/
theorem workspace_failfast (w : World) (build : Bool) (bcfg : BuildConfigMap)
    (cfgProjects : List Project) (ws : Workspace)
    (h : ∃ n ∈ ws.projects, findProjectByName cfgProjects n = none) :
    ∃ n ∈ ws.projects, findProjectByName cfgProjects n = none ∧
      refreshTargetWorkspace w build bcfg cfgProjects ws =
        ⟨bcfg, [], some ⟨"Workspace project " ++ n ++ " is not configured."⟩⟩ := by
  obtain ⟨n, hn, hnone, heq⟩ := resolve_error_of_unresolved cfgProjects ws.projects h
  refine ⟨n, hn, hnone, ?_⟩
  unfold refreshTargetWorkspace
  rw [heq]

/-- Witness for C1, mirroring the example of the spec: workspace `W` with
references `["A", "X"]` where only `A` is configured fails with the
not-configured error for `X` and performs no work at all (empty trace). -/
theorem workspace_failfast_witness :
    ∃ n ∈ (Workspace.mk "W" ["A", "X"]).projects,
      findProjectByName [demoA] n = none ∧
      refreshTargetWorkspace demoWorld false [] [demoA] ⟨"W", ["A", "X"]⟩ =
        ⟨[], [], some ⟨"Workspace project " ++ n ++ " is not configured."⟩⟩ :=
  workspace_failfast demoWorld false [] [demoA] ⟨"W", ["A", "X"]⟩
    ⟨"X", by decide, rfl⟩

/-- C4: in a workspace `[A, B, C]` whose references all resolved, projects
are processed strictly in sequence; when the update of B fails, the run
stops with exactly the events of A followed by the update attempt of B —
nothing of C is ever executed — and the propagated error is the svn error
of B, unchanged. -/
theorem workspace_sequential_abort (w : World) (build : Bool)
    (bcfg : BuildConfigMap) (cfgProjects : List Project) (ws : Workspace)
    (A B C : Project)
    (hres : resolveWorkspaceProjects cfgProjects ws.projects = .ok [A, B, C])
    (hA : (refreshTargetProject w build bcfg A).err = none)
    (hBsvn : w.svnOk B.path = false) :
    refreshTargetWorkspace w build bcfg cfgProjects ws =
      ⟨bcfg,
       (refreshTargetProject w build bcfg A).events ++ [.svnUpdate B.path],
       some (w.svnErr B.path)⟩ := by
  have hBrun := refreshTargetProject_svn_fail w build bcfg B hBsvn
  have hBerr : (refreshTargetProject w build bcfg B).err = some (w.svnErr B.path) := by
    rw [hBrun]
  unfold refreshTargetWorkspace
  rw [hres]
  dsimp only
  rw [eachSeries_cons_ok w build bcfg A _ hA,
    eachSeries_cons_err w build bcfg B _ _ hBerr, hBrun]

/-- Witness for C4: concrete workspace `[A, B, C]` in a world where the
svn update of `/repos/B` fails; the trace is exactly the update of A then
the failed update of B. -/
theorem workspace_sequential_abort_witness :
    refreshTargetWorkspace demoSvnFailBWorld false demoBuildCfg
        [demoA, demoB, demoC] ⟨"W3", ["A", "B", "C"]⟩ =
      ⟨demoBuildCfg,
       (refreshTargetProject demoSvnFailBWorld false demoBuildCfg demoA).events ++
         [.svnUpdate demoB.path],
       some (demoSvnFailBWorld.svnErr demoB.path)⟩ :=
  workspace_sequential_abort demoSvnFailBWorld false demoBuildCfg
    [demoA, demoB, demoC] ⟨"W3", ["A", "B", "C"]⟩ demoA demoB demoC rfl rfl rfl

/-- C2: for a project with `buildTool = "msbuild"` and build requested,
after a successful update the nuget restore command is invoked with the
solution file spliced in at the second positional slot (index 1 whenever
the template has at least one argument); if the restore fails, its error is
propagated and no build command is ever executed; if it succeeds, the build
command runs after it with the solution file appended at the end of the
build argument list. -/
theorem msbuild_two_phase (w : World) (bcfg : BuildConfigMap) (p : Project)
    (nc bc : BuildCommand)
    (htool : p.buildTool = "msbuild")
    (hbc : lookupTool bcfg "msbuild" = some bc)
    (hnc : lookupTool bcfg "nuget" = some nc)
    (hsvn : w.svnOk p.path = true) :
    (w.execOk nc.buildFile (splice1 p.slnFile nc.buildArgs) p.buildPath = false →
      (refreshTargetProject w true bcfg p).events =
        [.svnUpdate p.path,
         .exec nc.buildFile (splice1 p.slnFile nc.buildArgs) p.buildPath] ∧
      (refreshTargetProject w true bcfg p).err =
        some (w.execErr nc.buildFile (splice1 p.slnFile nc.buildArgs) p.buildPath)) ∧
    (w.execOk nc.buildFile (splice1 p.slnFile nc.buildArgs) p.buildPath = true →
      (refreshTargetProject w true bcfg p).events =
        [.svnUpdate p.path,
         .exec nc.buildFile (splice1 p.slnFile nc.buildArgs) p.buildPath,
         .exec bc.buildFile (bc.buildArgs ++ [p.slnFile]) p.buildPath]) ∧
    (nc.buildArgs ≠ [] → (splice1 p.slnFile nc.buildArgs)[1]? = some p.slnFile) := by
  refine ⟨?_, ?_, ?_⟩
  · intro hrestore
    rw [refreshTargetProject_msbuild_restore_fail w bcfg p nc htool hnc hsvn hrestore]
    exact ⟨rfl, rfl⟩
  · intro hrestore
    rw [refreshTargetProject_msbuild_restore_ok w bcfg p nc bc htool hbc hnc hsvn hrestore]
  · intro hne
    cases h : nc.buildArgs with
    | nil => exact absurd h hne
    | cons a t => simp [splice1]

/-- Witness for C2: project A of the sample configuration in the
all-success world: restore precedes build, the solution file sits at
index 1 of the restore arguments and is appended to the build arguments. -/
theorem msbuild_two_phase_witness :
    (refreshTargetProject demoWorld true demoBuildCfg demoA).events =
      [.svnUpdate "/repos/A",
       .exec "nuget.exe" (splice1 "A.sln" ["restore"]) "/repos/A",
       .exec "msbuild.exe" (["/t:Rebuild"] ++ ["A.sln"]) "/repos/A"] ∧
    (splice1 "A.sln" ["restore"])[1]? = some "A.sln" := by
  have h := msbuild_two_phase demoWorld demoBuildCfg demoA demoNuget demoMsbuild
    rfl rfl rfl rfl
  exact ⟨h.2.1 rfl, h.2.2 (by decide)⟩

/-- C3: across a workspace of two msbuild projects in a world where every
external command succeeds, the run leaves the stored build-config templates
unchanged (each invocation works on a clone), and the restore/build
argument lists of the second project are computed from the pristine
templates: they contain the second solution file only — in particular the
first solution file does not leak into them. -/
theorem workspace_template_frame (w : World) (bcfg : BuildConfigMap)
    (nc bc : BuildCommand) (p1 p2 : Project)
    (h1 : p1.buildTool = "msbuild") (h2 : p2.buildTool = "msbuild")
    (hbc : lookupTool bcfg "msbuild" = some bc)
    (hnc : lookupTool bcfg "nuget" = some nc)
    (hname : p1.name ≠ p2.name)
    (hsvn : ∀ path, w.svnOk path = true)
    (hexec : ∀ f a c, w.execOk f a c = true)
    (hsln : p1.slnFile ≠ p2.slnFile)
    (hrestoreArgs : p1.slnFile ∉ nc.buildArgs)
    (hbuildArgs : p1.slnFile ∉ bc.buildArgs) :
    refreshTargetWorkspace w true bcfg [p1, p2] ⟨"W", [p1.name, p2.name]⟩ =
      ⟨bcfg,
       [.svnUpdate p1.path,
        .exec nc.buildFile (splice1 p1.slnFile nc.buildArgs) p1.buildPath,
        .exec bc.buildFile (bc.buildArgs ++ [p1.slnFile]) p1.buildPath,
        .svnUpdate p2.path,
        .exec nc.buildFile (splice1 p2.slnFile nc.buildArgs) p2.buildPath,
        .exec bc.buildFile (bc.buildArgs ++ [p2.slnFile]) p2.buildPath],
       none⟩ ∧
    p1.slnFile ∉ splice1 p2.slnFile nc.buildArgs ∧
    p1.slnFile ∉ bc.buildArgs ++ [p2.slnFile] := by
  have hbeq : (p1.name == p2.name) = false := beq_eq_false_iff_ne.mpr hname
  have hres : resolveWorkspaceProjects [p1, p2] [p1.name, p2.name] = .ok [p1, p2] := by
    simp [resolveWorkspaceProjects, findProjectByName, List.find?, hbeq]
  have hp1 : refreshTargetProject w true bcfg p1 =
      ⟨bcfg,
       [.svnUpdate p1.path,
        .exec nc.buildFile (splice1 p1.slnFile nc.buildArgs) p1.buildPath,
        .exec bc.buildFile (bc.buildArgs ++ [p1.slnFile]) p1.buildPath],
       none⟩ := by
    rw [refreshTargetProject_msbuild_restore_ok w bcfg p1 nc bc h1 hbc hnc
      (hsvn p1.path) (hexec _ _ _)]
    rw [if_pos (hexec _ _ _)]
  have hp2 : refreshTargetProject w true bcfg p2 =
      ⟨bcfg,
       [.svnUpdate p2.path,
        .exec nc.buildFile (splice1 p2.slnFile nc.buildArgs) p2.buildPath,
        .exec bc.buildFile (bc.buildArgs ++ [p2.slnFile]) p2.buildPath],
       none⟩ := by
    rw [refreshTargetProject_msbuild_restore_ok w bcfg p2 nc bc h2 hbc hnc
      (hsvn p2.path) (hexec _ _ _)]
    rw [if_pos (hexec _ _ _)]
  refine ⟨?_, ?_, ?_⟩
  · unfold refreshTargetWorkspace
    rw [hres]
    dsimp only
    rw [eachSeries_cons_ok w true bcfg p1 _ (by rw [hp1]),
      eachSeries_cons_ok w true bcfg p2 _ (by rw [hp2]), hp1, hp2]
    rfl
  · rw [mem_splice1]
    rintro (h | h)
    · exact hsln h
    · exact hrestoreArgs h
  · simp only [List.mem_append, List.mem_singleton]
    rintro (h | h)
    · exact hbuildArgs h
    · exact hsln h

/-- Witness for C3: the two sample msbuild projects A and B in the
all-success world: the whole trace, the untouched template mapping, and the
second-project argument lists free of `A.sln`. -/
theorem workspace_template_frame_witness :
    refreshTargetWorkspace demoWorld true demoBuildCfg [demoA, demoB]
        ⟨"W", [demoA.name, demoB.name]⟩ =
      ⟨demoBuildCfg,
       [.svnUpdate demoA.path,
        .exec demoNuget.buildFile (splice1 demoA.slnFile demoNuget.buildArgs) demoA.buildPath,
        .exec demoMsbuild.buildFile (demoMsbuild.buildArgs ++ [demoA.slnFile]) demoA.buildPath,
        .svnUpdate demoB.path,
        .exec demoNuget.buildFile (splice1 demoB.slnFile demoNuget.buildArgs) demoB.buildPath,
        .exec demoMsbuild.buildFile (demoMsbuild.buildArgs ++ [demoB.slnFile]) demoB.buildPath],
       none⟩ ∧
    demoA.slnFile ∉ splice1 demoB.slnFile demoNuget.buildArgs ∧
    demoA.slnFile ∉ demoMsbuild.buildArgs ++ [demoB.slnFile] :=
  workspace_template_frame demoWorld demoBuildCfg demoNuget demoMsbuild
    demoA demoB rfl rfl rfl rfl (by decide) (fun _ => rfl) (fun _ _ _ => rfl)
    (by decide) (by decide) (by decide)

/-- Printing an integer obtained by casting a natural number gives the
same string as printing the natural number. -/
theorem toString_natCast (k : ℕ) : toString ((k : ℕ) : ℤ) = toString k := rfl

/-- The printed line for a duration of a whole number `s` of seconds:
seconds are the remainder modulo 60, minutes are the total minutes reduced
modulo 60 (the code computes `round(floor(td / 60) % 60)`, so hours are
discarded). -/
theorem displayProcessTime_whole_seconds (s : ℕ) :
    displayProcessTime (1000 * s) =
      "Refresh complete in " ++ toString (s / 60 % 60) ++ " minutes and " ++
        toString (s % 60) ++ " seconds." := by
  have hfl : ∀ k : ℕ, ⌊(k : ℚ) / 60⌋ = ((k / 60 : ℕ) : ℤ) := by
    intro k
    rw [← Int.natCast_floor_eq_floor (by positivity)]
    congr 1
    rw [Nat.floor_div_ofNat, Nat.floor_natCast]
  have hmod : ∀ k : ℕ, jsMod ((k : ℕ) : ℚ) 60 = ((k % 60 : ℕ) : ℚ) := by
    intro k
    unfold jsMod
    rw [hfl k]
    have h2 : (60 : ℚ) * ((k / 60 : ℕ) : ℚ) + ((k % 60 : ℕ) : ℚ) = (k : ℚ) := by
      exact_mod_cast Nat.div_add_mod k 60
    have h3 : (((k / 60 : ℕ) : ℤ) : ℚ) = ((k / 60 : ℕ) : ℚ) := by push_cast; rfl
    rw [h3]
    linarith
  have hhalf : ⌊(1 / 2 : ℚ)⌋ = 0 := by
    rw [Int.floor_eq_zero_iff]
    constructor <;> norm_num
  have hround : ∀ k : ℕ, jsRound ((k : ℕ) : ℚ) = ((k : ℕ) : ℤ) := by
    intro k
    unfold jsRound
    rw [show ((k : ℕ) : ℚ) = (((k : ℕ) : ℤ) : ℚ) by push_cast; rfl,
      Int.floor_int_add, hhalf, add_zero]
  have htd : ((1000 * s : ℕ) : ℚ) / 1000 = ((s : ℕ) : ℚ) := by push_cast; ring
  have hcast : (((s / 60 : ℕ) : ℤ) : ℚ) = ((s / 60 : ℕ) : ℚ) := by push_cast; rfl
  unfold displayProcessTime
  dsimp only
  rw [htd, hmod s, hround (s % 60), hfl s, hcast, hmod (s / 60),
    hround (s / 60 % 60), toString_natCast, toString_natCast]

/-- The events of `validateProgram` are file probes only: no timing line. -/
theorem timing_notin_validateProgram (w : World) (o : ProgramOpts)
    (line : String) : Event.timing line ∉ (validateProgram w o).1 := by
  unfold validateProgram
  dsimp only
  repeat' split
  all_goals simp

/-- The events of `setupConfigOptions` are config reads only: no timing
line. -/
theorem timing_notin_setupConfigOptions (w : World) (o : ProgramOpts)
    (cp : String) (line : String) :
    Event.timing line ∉ (setupConfigOptions w o cp).1 := by
  unfold setupConfigOptions
  repeat' split
  all_goals simp

/-- A failing project branch emits no timing line. -/
theorem timing_notin_projectBranch_failure (w : World) (o : ProgramOpts)
    (cfg : Config) (name : String) (ev : List Event) (e : JsError)
    (h : projectBranch w o cfg name = (ev, .failure e)) (line : String) :
    Event.timing line ∉ ev := by
  unfold projectBranch at h
  split at h
  · simp only [Prod.mk.injEq] at h
    rw [← h.1]
    simp
  · dsimp only at h
    split at h
    · simp only [Prod.mk.injEq] at h
      rw [← h.1]
      exact timing_notin_refreshTargetProject w o.build _ _ line
    · simp at h

/-- A failing workspace branch emits no timing line. -/
theorem timing_notin_workspaceBranch_failure (w : World) (o : ProgramOpts)
    (cfg : Config) (name : String) (ev : List Event) (e : JsError)
    (h : workspaceBranch w o cfg name = (ev, .failure e)) (line : String) :
    Event.timing line ∉ ev := by
  unfold workspaceBranch at h
  split at h
  · simp only [Prod.mk.injEq] at h
    rw [← h.1]
    simp
  · dsimp only at h
    split at h
    · simp only [Prod.mk.injEq] at h
      rw [← h.1]
      exact timing_notin_refreshTargetWorkspace w o.build _ _ _ line
    · simp at h

/-- A failing `processRequest` emits no timing line. -/
theorem timing_notin_processRequest_failure (w : World) (o : ProgramOpts)
    (cfg : Config) (ev : List Event) (e : JsError)
    (h : processRequest w o cfg = (ev, .failure e)) (line : String) :
    Event.timing line ∉ ev := by
  unfold processRequest at h
  split at h
  · exact timing_notin_projectBranch_failure w o cfg _ ev e h line
  · exact timing_notin_workspaceBranch_failure w o cfg _ ev e h line
  · simp at h

/-- The timing line is printed only on success: a failing run has no timing
event anywhere in its trace. -/
theorem timing_notin_fullRun_failure (w : World) (o : ProgramOpts)
    (tr : List Event) (e : JsError) (h : fullRun w o = (tr, .failure e))
    (line : String) : Event.timing line ∉ tr := by
  unfold fullRun at h
  split at h
  · next ev1 e1 heq =>
    simp only [Prod.mk.injEq] at h
    rw [← h.1]
    have hv := timing_notin_validateProgram w o line
    rw [heq] at hv
    exact hv
  · next ev1 cp heq =>
    split at h
    · next ev2 e2 heq2 =>
      simp only [Prod.mk.injEq] at h
      rw [← h.1]
      simp only [List.mem_append]
      rintro (hm | hm)
      · have hv := timing_notin_validateProgram w o line
        rw [heq] at hv
        exact hv hm
      · have hv := timing_notin_setupConfigOptions w o cp line
        rw [heq2] at hv
        exact hv hm
    · next ev2 cfg heq2 =>
      split at h
      next ev3 out heq3 =>
        simp only [Prod.mk.injEq] at h
        obtain ⟨htr, hout⟩ := h
        subst hout
        rw [← htr]
        simp only [List.mem_append]
        rintro ((hm | hm) | hm)
        · have hv := timing_notin_validateProgram w o line
          rw [heq] at hv
          exact hv hm
        · have hv := timing_notin_setupConfigOptions w o cp line
          rw [heq2] at hv
          exact hv hm
        · exact timing_notin_processRequest_failure w o cfg ev3 e heq3 line hm

/-- C8 counterexample: for a measured duration of exactly 3660 seconds the
code computes `minutes = round(floor(3660 / 60) % 60) = 1` — the total of
61 whole minutes is reduced modulo 60 — and prints `1 minutes and 0
seconds`, so the report does not state the duration as whole minutes plus
a rounded remainder of seconds as the claim asserts for every duration. -/
theorem timing_hours_counterexample :
    displayProcessTime 3660000 = "Refresh complete in 1 minutes and 0 seconds." :=
  displayProcessTime_whole_seconds 3660

/-- C8 amended: the report converts the measured duration into minutes
REDUCED MODULO 60 (hours are discarded) plus the rounded remainder of
seconds; for a duration of exactly 125 seconds it prints `2 minutes and 5
seconds`; and the timing summary is printed only on success — a failing run
emits no timing line. -/
theorem timing_report_amended :
    (∀ s : ℕ, displayProcessTime (1000 * s) =
      "Refresh complete in " ++ toString (s / 60 % 60) ++ " minutes and " ++
        toString (s % 60) ++ " seconds.") ∧
    displayProcessTime 125000 = "Refresh complete in 2 minutes and 5 seconds." ∧
    (∀ (w : World) (o : ProgramOpts) (tr : List Event) (e : JsError),
      fullRun w o = (tr, .failure e) → ∀ line, Event.timing line ∉ tr) :=
  ⟨displayProcessTime_whole_seconds, displayProcessTime_whole_seconds 125,
   fun w o tr e h line => timing_notin_fullRun_failure w o tr e h line⟩

/-- Witness for C8 amended: the 125-second instance through the general
clause, and the absence of a timing line in the trace of a concrete failing
run. -/
theorem timing_report_amended_witness :
    displayProcessTime (1000 * 125) =
      "Refresh complete in " ++ toString (125 / 60 % 60) ++ " minutes and " ++
        toString (125 % 60) ++ " seconds." ∧
    Event.timing "Refresh complete in 2 minutes and 5 seconds." ∉
      [Event.fsAccess "config.json"] :=
  ⟨timing_report_amended.1 125,
   timing_report_amended.2.2 demoNoConfigWorld ⟨4, some "A", none, none, false⟩
     [Event.fsAccess "config.json"] ⟨"Cannot locate --config value: undefined"⟩
     rfl "Refresh complete in 2 minutes and 5 seconds."⟩

end DevToolz
